import Mathlib

/-
  Verification development for the StreamFlow VPS backend server
  (broadcast engine in server.js: DJ-mode master/feeder architecture).

  The definitions below are a shallow embedding of the broadcast-engine
  portion of the server: playlist resolution (getVideoPath), playlist
  validation (cleanPlaylist), the skip control route, the feeder close
  handler and playNextVideo selection logic, startMasterStream / stopStream,
  and the pollStreamConfig cycle (start branch with smart-restart, stop
  branch, critical-change check, playlist update with pointer correction).

  File-system existence (fs.existsSync) is modelled by a predicate
  `ex : String -> Bool` passed explicitly; wall-clock time (Date.now) by an
  explicit `now : Int`.  Subprocess handles are modelled by the booleans
  `masterAlive` / `feederAlive` (masterStdin is non-null exactly when the
  master process is alive).  The `playNextVideo()` call made at the end of
  `startMasterStream` is modelled by explicitly composing `playNextVideo`
  after the poll step in the theorems, since `playNextVideo` returns a
  spawn outcome.
-/

namespace StreamFlow

/-- Boolean prefix test on character lists. -/
def charsPre : List Char → List Char → Bool
  | [], _ => true
  | _ :: _, [] => false
  | c :: cs, d :: ds => c == d && charsPre cs ds

/-- String prefix test (the JS String.startsWith used by the server),
computed on the underlying character lists. -/
def strStartsWith (s p : String) : Bool := charsPre p.data s.data

/-- Drop the first n characters of a string. -/
def strDrop (s : String) (n : Nat) : String := String.mk (s.data.drop n)

/-- JS truthiness of an optional string value: undefined, null and the
empty string are falsy; every other string is truthy. -/
def strTruthy : Option String → Bool
  | some s => s != ""
  | none => false

/-- Object-shaped playlist entry fields (server reads id, filename, url,
path and title off playlist items). -/
structure EntryFields where
  id : Option String
  filename : Option String
  url : Option String
  path : Option String
  title : Option String
deriving DecidableEq, Repr

/-- A playlist item is either a raw string (a file path) or an object. -/
inductive PlaylistItem where
  | raw (s : String)
  | obj (e : EntryFields)
deriving DecidableEq, Repr

/-- The `id` property of a playlist item (undefined on raw strings). -/
def itemId : PlaylistItem → Option String
  | .raw _ => none
  | .obj e => e.id

/-- The `filename` property of a playlist item (undefined on raw strings). -/
def itemFilename : PlaylistItem → Option String
  | .raw _ => none
  | .obj e => e.filename

/-- JS truthiness of a playlist item: objects are truthy, a raw string is
truthy iff non-empty. -/
def itemTruthy : PlaylistItem → Bool
  | .raw s => s != ""
  | .obj _ => true

/-- Directory constants of the server (VIDEOS_DIR and __dirname). -/
structure Dirs where
  videosDir : String
  dirname : String
deriving DecidableEq, Repr

/-- Model of node path.join for the two-argument shapes the server uses:
a separating slash is inserted unless the second segment already starts
with one. -/
def pathJoin (a b : String) : String :=
  if strStartsWith b "/" then a ++ b else a ++ "/" ++ b

/-- Model of `new URL(u).pathname` for http(s) URLs: drop the scheme and
authority, keep the leading-slash path, drop query and fragment.  A string
with no scheme separator makes the URL constructor throw, which the server
catches and turns into null. -/
def urlPathname (u : String) : Option String :=
  match u.splitOn "://" with
  | [] => none
  | [_] => none
  | _ :: rest =>
    let after := String.intercalate "://" rest
    let after := (after.splitOn "?").headD ""
    let after := (after.splitOn "#").headD ""
    match after.splitOn "/" with
    | [] => some "/"
    | _ :: pathParts =>
      if pathParts.isEmpty then some "/"
      else some ("/" ++ String.intercalate "/" pathParts)

/-- Translation of server.js getVideoPath: raw string first, then the
filename field joined to VIDEOS_DIR, then the url field (http URLs parsed
to their pathname; a leading "/videos/" stripped and joined to VIDEOS_DIR;
other absolute paths joined under __dirname/public; anything else taken
as-is), then the raw path field; otherwise null. -/
def getVideoPath (d : Dirs) : PlaylistItem → Option String
  | .raw s => some s
  | .obj e =>
    if strTruthy e.filename then
      some (pathJoin d.videosDir (e.filename.getD ""))
    else if strTruthy e.url then
      let u := e.url.getD ""
      let extracted : Option String :=
        if strStartsWith u "http" then urlPathname u else some u
      match extracted with
      | none => none
      | some p =>
        if strStartsWith p "/videos/" then
          some (pathJoin d.videosDir (strDrop p 8))
        else if strStartsWith p "/" then
          some (pathJoin (pathJoin d.dirname "public") p)
        else
          some p
    else if strTruthy e.path then
      some (e.path.getD "")
    else
      none

/-- The server's `filePath && fs.existsSync(filePath)` test: the resolved
path is truthy and the file exists. -/
def pathOk (ex : String → Bool) : Option String → Bool
  | some p => p != "" && ex p
  | none => false

/-- Result of cleanPlaylist in server.js. -/
structure CleanResult where
  validPlaylist : List PlaylistItem
  hasChanges : Bool
  removedCount : Nat
deriving DecidableEq, Repr

/-- Translation of server.js cleanPlaylist: keep exactly the entries whose
resolved path is truthy and exists on disk. -/
def cleanPlaylist (d : Dirs) (ex : String → Bool) (pl : List PlaylistItem) :
    CleanResult :=
  let valid := pl.filter (fun item => pathOk ex (getVideoPath d item))
  { validPlaylist := valid
    hasChanges := decide (valid.length < pl.length)
    removedCount := pl.length - valid.length }

/-- The stream_config record polled from the store (the fields the engine
reads). -/
structure Config where
  is_active : Bool
  rtmp_url : Option String
  stream_key : Option String
  bitrate : Option Int
  audio_overlay_enabled : Option Bool
  audio_volume : Option Int
  audio_file : Option String
  playlist : List PlaylistItem
deriving DecidableEq, Repr

/-- The resume checkpoint record {lastPlayedVideoId, timestamp} written by
saveStreamState and read by loadStreamState. -/
structure SavedState where
  lastPlayedVideoId : Option String
  timestamp : Int
deriving DecidableEq, Repr

/-- The module-level broadcast state of server.js: isStreaming, the
subprocess handles (modelled as liveness booleans), the playlist snapshot,
the playlist pointer (an Int, since the skip handler decrements through -1
before clamping), the manual-skip flag and the last applied config. -/
structure BroadcastState where
  isStreaming : Bool
  masterAlive : Bool
  feederAlive : Bool
  currentPlaylist : List PlaylistItem
  currentIndex : Int
  skipToTarget : Bool
  lastConfig : Option Config
deriving DecidableEq, Repr

/-- JS array indexing `l[i]` with a possibly negative or out-of-range
index: undefined outside [0, length). -/
def listGet (l : List PlaylistItem) (i : Int) : Option PlaylistItem :=
  if 0 ≤ i then l[i.toNat]? else none

/-- Model of Array.findIndex returning the first index satisfying the
predicate (none in place of -1). -/
def findIndex (p : PlaylistItem → Bool) : List PlaylistItem → Option Nat
  | [] => none
  | x :: xs => if p x then some 0 else (findIndex p xs).map (· + 1)

/-- The sanity check at the top of playNextVideo: a negative index is
reset to 0, then an index at or past the playlist length is reset to 0. -/
def clampIndex (len : Nat) (i : Int) : Int :=
  let j := if i < 0 then 0 else i
  if j ≥ (len : Int) then 0 else j

/-- The pointer-correction match in pollStreamConfig: the candidate's id is
truthy and equal to the old video's id, or its filename is truthy and equal
to the old video's filename. -/
def matchesOld (old v : PlaylistItem) : Bool :=
  (strTruthy (itemId v) && itemId v == itemId old) ||
  (strTruthy (itemFilename v) && itemFilename v == itemFilename old)

/-- Response of the POST /control/skip route. -/
inductive SkipResponse where
  | errNotActive
  | errInvalidDirection
  | success (newIndex : Int)
deriving DecidableEq, Repr

/-- Effect of one invocation of the skip route: the updated state, the
HTTP response, and whether the current feeder process was killed. -/
structure SkipResult where
  state : BroadcastState
  response : SkipResponse
  killedFeeder : Bool
deriving DecidableEq, Repr

/-- Translation of the POST /control/skip handler: reject when not
streaming, reject a direction other than next/previous (a missing or empty
direction is likewise rejected), otherwise step the index with wrap-around,
set the skipToTarget flag and kill the feeder if one is alive. -/
def controlSkip (st : BroadcastState) (direction : Option String) :
    SkipResult :=
  if !st.isStreaming then
    { state := st, response := .errNotActive, killedFeeder := false }
  else if direction != some "next" && direction != some "previous" then
    { state := st, response := .errInvalidDirection, killedFeeder := false }
  else
    let newIdx :=
      if direction == some "next" then
        let i := st.currentIndex + 1
        if i ≥ (st.currentPlaylist.length : Int) then 0 else i
      else
        let i := st.currentIndex - 1
        if i < 0 then (st.currentPlaylist.length : Int) - 1 else i
    { state := { st with currentIndex := newIdx, skipToTarget := true }
      response := .success newIdx
      killedFeeder := st.feederAlive }

/-- What the feeder close handler decides to do next. -/
inductive CloseAction where
  | playNow
  | playDelayed
  | nothing
deriving DecidableEq, Repr

/-- Translation of the feeder process close handler in playNextVideo: a
pending manual skip clears the flag and replays the already-set index;
exit code 0 advances by one and plays immediately; a non-null non-zero
code advances by one and plays after a backoff; a null code (deliberate
kill without a pending skip) does nothing. -/
def onFeederClose (st : BroadcastState) (code : Option Int) :
    BroadcastState × CloseAction :=
  if st.skipToTarget then
    ({ st with skipToTarget := false }, .playNow)
  else
    match code with
    | some c => if c = 0 then
        ({ st with currentIndex := st.currentIndex + 1 }, .playNow)
      else
        ({ st with currentIndex := st.currentIndex + 1 }, .playDelayed)
    | none => (st, .nothing)

/-- Outcome of one call to playNextVideo. -/
inductive PlayOutcome where
  | idleNoop
  | emptyWait
  | spawned (idx : Nat) (item : PlaylistItem) (file : String)
  | fuelOut
deriving DecidableEq, Repr

/-- Result of playNextVideo: updated state, outcome, and the resume
checkpoint written by saveStreamState when an entry begins playing. -/
structure PlayResult where
  state : BroadcastState
  outcome : PlayOutcome
  saved : Option SavedState
deriving DecidableEq, Repr

/-- Translation of playNextVideo: return if not streaming or the master
stdin is gone; wait if the playlist is empty; clamp the index; resolve the
entry at the index; if the path is falsy or the file is missing, advance
by one and retry (fuel bounds the retry recursion); otherwise persist the
resume checkpoint and spawn the feeder on that entry. -/
def playNextVideo (d : Dirs) (ex : String → Bool) (now : Int) :
    Nat → BroadcastState → PlayResult
  | 0, st => { state := st, outcome := .fuelOut, saved := none }
  | fuel + 1, st =>
    if !(st.isStreaming && st.masterAlive) then
      { state := st, outcome := .idleNoop, saved := none }
    else if st.currentPlaylist.isEmpty then
      { state := st, outcome := .emptyWait, saved := none }
    else
      let idx := clampIndex st.currentPlaylist.length st.currentIndex
      let st1 := { st with currentIndex := idx }
      let video := st1.currentPlaylist.getD idx.toNat (.raw "")
      let fp := getVideoPath d video
      if pathOk ex fp then
        { state := { st1 with feederAlive := true }
          outcome := .spawned idx.toNat video (fp.getD "")
          saved := some { lastPlayedVideoId := itemId video, timestamp := now } }
      else
        playNextVideo d ex now fuel { st1 with currentIndex := idx + 1 }

/-- Translation of startMasterStream's state effect: nothing if a master
already runs or the RTMP URL or stream key is falsy; otherwise the master
subprocess is spawned and isStreaming becomes true.  (The playNextVideo
kick-off at the end of the function is composed explicitly in theorems.) -/
def startMasterStream (cfg : Config) (st : BroadcastState) : BroadcastState :=
  if st.masterAlive then st
  else if !(strTruthy cfg.rtmp_url && strTruthy cfg.stream_key) then st
  else { st with masterAlive := true, isStreaming := true }

/-- Translation of stopStream: kill feeder and master, clear isStreaming. -/
def stopStream (st : BroadcastState) : BroadcastState :=
  { st with feederAlive := false, masterAlive := false, isStreaming := false }

/-- The critical-change test in pollStreamConfig: stream key, RTMP URL or
any audio overlay field differs from the last applied config (bitrate is
not among the compared fields). -/
def criticalChanged (cfg last : Config) : Bool :=
  cfg.stream_key != last.stream_key ||
  cfg.rtmp_url != last.rtmp_url ||
  cfg.audio_overlay_enabled != last.audio_overlay_enabled ||
  cfg.audio_volume != last.audio_volume ||
  cfg.audio_file != last.audio_file

/-- The playlist-change branch of pollStreamConfig: remember the entry at
the current index, adopt the cleaned new playlist, then pointer-correct:
if the old entry is truthy and found (by id or filename) in the new list,
remap the index to its position; if not found, clamp the index to 0 when
it is at or past the new length; finally record the config as applied. -/
def applyPlaylistUpdate (d : Dirs) (ex : String → Bool)
    (st : BroadcastState) (cfg : Config) : BroadcastState :=
  let oldVideo := listGet st.currentPlaylist st.currentIndex
  let valid := (cleanPlaylist d ex cfg.playlist).validPlaylist
  let st2 := { st with currentPlaylist := valid }
  let st3 :=
    match oldVideo with
    | some old =>
      if itemTruthy old then
        match findIndex (matchesOld old) valid with
        | some n => { st2 with currentIndex := (n : Int) }
        | none =>
          if st2.currentIndex ≥ (valid.length : Int) then
            { st2 with currentIndex := 0 }
          else st2
      else st2
    | none => st2
  { st3 with lastConfig := some cfg }

/-- The runtime-update block of pollStreamConfig (runs when streaming and
the config is active): a critical change stops the stream; otherwise a
changed playlist is adopted with pointer correction; otherwise nothing.
A null lastConfig would throw inside the try block, leaving state as is. -/
def runtimeUpdate (d : Dirs) (ex : String → Bool) (st : BroadcastState)
    (cfg : Config) : BroadcastState :=
  if st.isStreaming && cfg.is_active then
    match st.lastConfig with
    | none => st
    | some last =>
      if criticalChanged cfg last then stopStream st
      else if cfg.playlist ≠ last.playlist then applyPlaylistUpdate d ex st cfg
      else st
  else st

/-- The smart-restart lookup of the start branch: when the loaded
checkpoint carries a truthy lastPlayedVideoId found by id in the adopted
playlist, the index becomes one past that position (mod length). -/
def smartRestart (saved : Option SavedState) (st : BroadcastState) :
    BroadcastState :=
  match saved with
  | some s =>
    if strTruthy s.lastPlayedVideoId then
      match findIndex (fun v => itemId v == s.lastPlayedVideoId)
          st.currentPlaylist with
      | some i =>
        { st with currentIndex :=
            (((i + 1) % st.currentPlaylist.length : Nat) : Int) }
      | none => st
    else st
  | none => st

/-- The is_active-and-idle branch of pollStreamConfig: clean and adopt the
playlist, reset the index to 0, apply smart restart, start the master, and
record the config as applied. -/
def startBranch (d : Dirs) (ex : String → Bool) (saved : Option SavedState)
    (st : BroadcastState) (cfg : Config) : BroadcastState :=
  let valid := (cleanPlaylist d ex cfg.playlist).validPlaylist
  let stA := { st with currentPlaylist := valid, currentIndex := 0 }
  let stB := smartRestart saved stA
  let stC := startMasterStream cfg stB
  { stC with lastConfig := some cfg }

/-- Translation of one pollStreamConfig cycle.  A missing config record is
a no-op.  When the config is active and the engine is idle: the start
branch runs and falls through to the runtime-update block.  When the
config is inactive while streaming: stop and return.  Otherwise just the
runtime-update block. -/
def pollStreamConfig (d : Dirs) (ex : String → Bool)
    (saved : Option SavedState) (st : BroadcastState)
    (cfgOpt : Option Config) : BroadcastState :=
  match cfgOpt with
  | none => st
  | some cfg =>
    if cfg.is_active && !st.isStreaming then
      runtimeUpdate d ex (startBranch d ex saved st cfg) cfg
    else if !cfg.is_active && st.isStreaming then
      stopStream st
    else
      runtimeUpdate d ex st cfg

/-- The natural feeder-exit advance: the close handler's increment on exit
code 0 followed by the index sanity check at the start of the next
playNextVideo call. -/
def stepNatural (st : BroadcastState) : BroadcastState :=
  let st1 := (onFeederClose st (some 0)).1
  { st1 with currentIndex :=
      clampIndex st1.currentPlaylist.length st1.currentIndex }

/-! Helper lemmas about the shallow embedding. -/

theorem findIndex_some_lt {p : PlaylistItem → Bool} :
    ∀ {l : List PlaylistItem} {n : Nat}, findIndex p l = some n → n < l.length := by
  intro l
  induction l with
  | nil => intro n h; simp [findIndex] at h
  | cons x xs ih =>
    intro n h
    simp only [findIndex] at h
    by_cases hx : p x
    · simp [hx] at h; subst h; simp
    · simp [hx, Option.map_eq_some'] at h
      obtain ⟨m, hm, rfl⟩ := h
      have := ih hm
      simp; omega

theorem findIndex_some_sat {p : PlaylistItem → Bool} :
    ∀ {l : List PlaylistItem} {n : Nat}, findIndex p l = some n →
      p (l.getD n (.raw "")) = true := by
  intro l
  induction l with
  | nil => intro n h; simp [findIndex] at h
  | cons x xs ih =>
    intro n h
    simp only [findIndex] at h
    by_cases hx : p x
    · simp [hx] at h; subst h; simpa using hx
    · simp [hx, Option.map_eq_some'] at h
      obtain ⟨m, hm, rfl⟩ := h
      simpa using ih hm

theorem findIndex_of_any {p : PlaylistItem → Bool} :
    ∀ {l : List PlaylistItem}, l.any p = true → ∃ n, findIndex p l = some n := by
  intro l
  induction l with
  | nil => intro h; simp at h
  | cons x xs ih =>
    intro h
    by_cases hx : p x
    · exact ⟨0, by simp [findIndex, hx]⟩
    · simp [hx] at h
      obtain ⟨m, hm⟩ := ih (by simpa using h)
      exact ⟨m + 1, by simp [findIndex, hx, hm]⟩

theorem listGet_bounds {l : List PlaylistItem} {i : Int} {x : PlaylistItem}
    (h : listGet l i = some x) : 0 ≤ i ∧ i.toNat < l.length := by
  unfold listGet at h
  by_cases h0 : 0 ≤ i
  · simp only [h0, if_true] at h
    exact ⟨h0, (List.getElem?_eq_some_iff.mp h).1⟩
  · simp [h0] at h

theorem listGet_natCast (l : List PlaylistItem) (n : Nat) (h : n < l.length) :
    listGet l (n : Int) = some (l.getD n (.raw "")) := by
  unfold listGet
  simp [List.getElem?_eq_getElem h, List.getD_eq_getElem l _ h]

theorem clampIndex_mem {len : Nat} (hlen : 1 ≤ len) (i : Int) :
    0 ≤ clampIndex len i ∧ clampIndex len i < (len : Int) := by
  simp only [clampIndex]
  split_ifs <;> constructor <;> omega

theorem clampIndex_id {len : Nat} {i : Int} (h0 : 0 ≤ i) (h1 : i < (len : Int)) :
    clampIndex len i = i := by
  simp only [clampIndex]
  split_ifs <;> omega

theorem clampIndex_succ_emod {len : Nat} {i : Int} (h0 : 0 ≤ i)
    (h1 : i < (len : Int)) : clampIndex len (i + 1) = (i + 1) % (len : Int) := by
  simp only [clampIndex]
  have hn : ¬ i + 1 < 0 := by omega
  simp only [hn, if_false]
  by_cases hge : i + 1 ≥ (len : Int)
  · have heq : i + 1 = (len : Int) := by omega
    simp [hge, heq, Int.emod_self]
  · have : (i + 1) % (len : Int) = i + 1 :=
      Int.emod_eq_of_lt (by omega) (by omega)
    simp [hge, this]

theorem criticalChanged_self (cfg : Config) : criticalChanged cfg cfg = false := by
  simp [criticalChanged]

theorem stepNatural_eq (st : BroadcastState) (hskip : st.skipToTarget = false) :
    stepNatural st =
      { st with currentIndex :=
          clampIndex st.currentPlaylist.length (st.currentIndex + 1) } := by
  cases st
  simp_all [stepNatural, onFeederClose]

theorem stepNatural_iterate (k : Nat) : ∀ st : BroadcastState,
    st.skipToTarget = false → 0 ≤ st.currentIndex →
    st.currentIndex < (st.currentPlaylist.length : Int) →
    (stepNatural^[k] st).currentPlaylist = st.currentPlaylist ∧
    (stepNatural^[k] st).skipToTarget = false ∧
    (stepNatural^[k] st).currentIndex =
      (st.currentIndex + k) % (st.currentPlaylist.length : Int) := by
  induction k with
  | zero =>
    intro st hskip h0 h1
    simp [hskip, Int.emod_eq_of_lt h0 h1]
  | succ k ih =>
    intro st hskip h0 h1
    have hpos : (0 : Int) < (st.currentPlaylist.length : Int) := by omega
    have hne : (st.currentPlaylist.length : Int) ≠ 0 := by omega
    rw [Function.iterate_succ_apply]
    rw [stepNatural_eq st hskip, clampIndex_succ_emod h0 h1]
    set st' : BroadcastState :=
      { st with currentIndex :=
          (st.currentIndex + 1) % (st.currentPlaylist.length : Int) } with hst'
    have hpl : st'.currentPlaylist = st.currentPlaylist := rfl
    have hsk : st'.skipToTarget = false := hskip
    have hi0 : 0 ≤ st'.currentIndex := Int.emod_nonneg _ hne
    have hi1 : st'.currentIndex < (st'.currentPlaylist.length : Int) := by
      simpa [hpl] using Int.emod_lt_of_pos (st.currentIndex + 1) hpos
    obtain ⟨c1, c2, c3⟩ := ih st' hsk hi0 hi1
    refine ⟨by rw [c1, hpl], c2, ?_⟩
    rw [c3]
    have : st'.currentIndex =
        (st.currentIndex + 1) % (st.currentPlaylist.length : Int) := rfl
    rw [this, hpl, Int.emod_add_emod]
    congr 1
    push_cast
    ring

/-! Concrete scenario data used by counterexamples and witnesses. -/

/-- Concrete directory layout. -/
def dA : Dirs := { videosDir := "/srv/videos", dirname := "/srv" }

/-- File-existence predicate under which every path exists. -/
def exAll : String → Bool := fun _ => true

/-- Playlist entry A. -/
def itA : PlaylistItem :=
  .obj { id := some "idA", filename := some "a.mp4", url := none,
         path := none, title := some "A" }

/-- Playlist entry B. -/
def itB : PlaylistItem :=
  .obj { id := some "idB", filename := some "b.mp4", url := none,
         path := none, title := some "B" }

/-- Playlist entry C. -/
def itC : PlaylistItem :=
  .obj { id := some "idC", filename := some "c.mp4", url := none,
         path := none, title := some "C" }

/-- A fully-populated active config with playlist [A, B, C]. -/
def cfg0 : Config :=
  { is_active := true, rtmp_url := some "rtmp://live", stream_key := some "key",
    bitrate := some 8000, audio_overlay_enabled := some true,
    audio_volume := some 35, audio_file := some "rain.mp3",
    playlist := [itA, itB, itC] }

/-- A streaming state playing entry B of [A, B, C] under cfg0. -/
def st0 : BroadcastState :=
  { isStreaming := true, masterAlive := true, feederAlive := true,
    currentPlaylist := [itA, itB, itC], currentIndex := 1,
    skipToTarget := false, lastConfig := some cfg0 }

/-- cfg0 with entry B removed from the playlist. -/
def cfg1 : Config := { cfg0 with playlist := [itA, itC] }

/-- cfg0 with only the bitrate changed. -/
def cfgBit : Config := { cfg0 with bitrate := some 4000 }

/-- The idle engine state at process start. -/
def stIdle : BroadcastState :=
  { isStreaming := false, masterAlive := false, feederAlive := false,
    currentPlaylist := [], currentIndex := 0,
    skipToTarget := false, lastConfig := none }

/-- cfg0 with an empty playlist. -/
def cfgEmpty : Config := { cfg0 with playlist := [] }

/-- cfg0 with the stream key missing. -/
def cfgNoKey : Config := { cfg0 with stream_key := none }

/-- A checkpoint recording entry B as last played. -/
def savedB : SavedState := { lastPlayedVideoId := some "idB", timestamp := 0 }

/-! Claims. -/

/-- C2 (confirmed).  Wrap-around correctness: for every playlist of length
N >= 1 and every starting index in [0, N), applying the natural
feeder-exit advance (the close handler's increment on exit code 0 followed
by the reset-to-0 sanity check at the start of the next playNextVideo
call) N times returns currentIndex to its starting value. -/
theorem wrap_around_advance (st : BroadcastState)
    (hskip : st.skipToTarget = false)
    (h0 : 0 ≤ st.currentIndex)
    (h1 : st.currentIndex < (st.currentPlaylist.length : Int)) :
    (stepNatural^[st.currentPlaylist.length] st).currentIndex =
      st.currentIndex := by
  obtain ⟨-, -, h⟩ := stepNatural_iterate st.currentPlaylist.length st hskip h0 h1
  rw [h]
  have hrw : st.currentIndex + (st.currentPlaylist.length : Int) =
      st.currentIndex + (st.currentPlaylist.length : Int) * 1 := by ring
  rw [hrw, Int.add_mul_emod_self_left, Int.emod_eq_of_lt h0 h1]

/-- Witness for C2 on the concrete three-entry scenario. -/
theorem wrap_around_advance_witness :
    st0.skipToTarget = false ∧ 0 ≤ st0.currentIndex ∧
    st0.currentIndex < (st0.currentPlaylist.length : Int) ∧
    (stepNatural^[st0.currentPlaylist.length] st0).currentIndex =
      st0.currentIndex :=
  ⟨by decide, by decide, by decide,
    wrap_around_advance st0 (by decide) (by decide) (by decide)⟩

/-- The feeder close handler under a pending manual skip: for any exit
code it clears the flag and replays the already-set index. -/
theorem onFeederClose_skip (st : BroadcastState) (code : Option Int)
    (h : st.skipToTarget = true) :
    onFeederClose st code = ({ st with skipToTarget := false }, .playNow) := by
  simp [onFeederClose, h]

/-- cfg0 with the playlist reordered so that entry B sits at index 2. -/
def cfgSwap : Config := { cfg0 with playlist := [itC, itA, itB] }

/-- C1 (confirmed).  Pointer correction: if, while streaming, the playlist
snapshot is replaced by a new (validated) one that still contains the
currently-playing entry (matched by id or by filename), the poll-cycle
playlist-update branch remaps currentIndex to that entry's position, so
the entry at currentPlaylist[currentIndex] after the update matches the
one that was playing; every state field other than the snapshot and the
numeric index is unchanged. -/
theorem pointer_correction_keeps_playing_entry (d : Dirs) (ex : String → Bool)
    (st : BroadcastState) (cfg : Config) (old : PlaylistItem)
    (hold : listGet st.currentPlaylist st.currentIndex = some old)
    (ht : itemTruthy old = true)
    (hmem : ((cleanPlaylist d ex cfg.playlist).validPlaylist).any
      (matchesOld old) = true) :
    (∃ w, listGet (applyPlaylistUpdate d ex st cfg).currentPlaylist
        (applyPlaylistUpdate d ex st cfg).currentIndex = some w ∧
        matchesOld old w = true) ∧
    (applyPlaylistUpdate d ex st cfg).isStreaming = st.isStreaming ∧
    (applyPlaylistUpdate d ex st cfg).masterAlive = st.masterAlive ∧
    (applyPlaylistUpdate d ex st cfg).feederAlive = st.feederAlive ∧
    (applyPlaylistUpdate d ex st cfg).skipToTarget = st.skipToTarget ∧
    (applyPlaylistUpdate d ex st cfg).currentPlaylist =
      (cleanPlaylist d ex cfg.playlist).validPlaylist := by
  obtain ⟨n, hn⟩ := findIndex_of_any hmem
  have hlt := findIndex_some_lt hn
  have hsat := findIndex_some_sat hn
  have happ : applyPlaylistUpdate d ex st cfg =
      { st with currentPlaylist := (cleanPlaylist d ex cfg.playlist).validPlaylist,
                currentIndex := (n : Int),
                lastConfig := some cfg } := by
    simp only [applyPlaylistUpdate, hold, ht, hn, if_true]
  rw [happ]
  refine ⟨⟨(cleanPlaylist d ex cfg.playlist).validPlaylist.getD n (.raw ""),
    ?_, hsat⟩, rfl, rfl, rfl, rfl, rfl⟩
  exact listGet_natCast _ n hlt

/-- Witness for C1: reordering [A,B,C] to [C,A,B] while B plays moves the
pointer to B's new slot. -/
theorem pointer_correction_witness :
    listGet st0.currentPlaylist st0.currentIndex = some itB ∧
    (∃ w, listGet (applyPlaylistUpdate dA exAll st0 cfgSwap).currentPlaylist
        (applyPlaylistUpdate dA exAll st0 cfgSwap).currentIndex = some w ∧
        matchesOld itB w = true) :=
  ⟨by decide,
    (pointer_correction_keeps_playing_entry dA exAll st0 cfgSwap itB
      (by decide) (by decide) (by decide)).1⟩

/-- The skip route's next computation equals modular increment. -/
theorem next_wrap (len : Nat) (i : Int) (h0 : 0 ≤ i) (h1 : i < (len : Int)) :
    (if i + 1 ≥ (len : Int) then 0 else i + 1) = (i + 1) % (len : Int) := by
  by_cases hge : i + 1 ≥ (len : Int)
  · rw [if_pos hge]
    have heq : i + 1 = (len : Int) := by omega
    rw [heq, Int.emod_self]
  · rw [if_neg hge]
    exact (Int.emod_eq_of_lt (by omega) (by omega)).symm

/-- The skip route's previous computation equals modular decrement. -/
theorem prev_wrap (len : Nat) (i : Int) (h0 : 0 ≤ i) (h1 : i < (len : Int)) :
    (if i - 1 < 0 then (len : Int) - 1 else i - 1) =
      (i - 1 + (len : Int)) % (len : Int) := by
  by_cases hz : i - 1 < 0
  · rw [if_pos hz]
    rw [show i - 1 + (len : Int) = (len : Int) - 1 from by omega]
    exact (Int.emod_eq_of_lt (by omega) (by omega)).symm
  · rw [if_neg hz]
    rw [show i - 1 + (len : Int) = i - 1 + (len : Int) * 1 from by ring,
        Int.add_mul_emod_self_left]
    exact (Int.emod_eq_of_lt (by omega) (by omega)).symm

/-- C3 (confirmed).  Manual skip while streaming with index in range:
direction next targets (oldIndex+1) mod L, previous targets
(oldIndex-1+L) mod L, the skip flag is set and the feeder killed; the
close handler, seeing the flag, clears it and keeps exactly that target
(no advance-by-one), and the sanity clamp leaves the target unchanged, so
that index is what the next playNextVideo call plays. -/
theorem manual_skip_targets_neighbor (st : BroadcastState) (code : Option Int)
    (hstr : st.isStreaming = true) (hfeed : st.feederAlive = true)
    (h0 : 0 ≤ st.currentIndex)
    (h1 : st.currentIndex < (st.currentPlaylist.length : Int)) :
    (controlSkip st (some "next")).state.currentIndex =
      (st.currentIndex + 1) % (st.currentPlaylist.length : Int) ∧
    (controlSkip st (some "next")).state.skipToTarget = true ∧
    (controlSkip st (some "next")).killedFeeder = true ∧
    (controlSkip st (some "next")).response =
      .success ((st.currentIndex + 1) % (st.currentPlaylist.length : Int)) ∧
    (controlSkip st (some "previous")).state.currentIndex =
      (st.currentIndex - 1 + (st.currentPlaylist.length : Int)) %
        (st.currentPlaylist.length : Int) ∧
    (controlSkip st (some "previous")).state.skipToTarget = true ∧
    (controlSkip st (some "previous")).killedFeeder = true ∧
    (controlSkip st (some "previous")).response =
      .success ((st.currentIndex - 1 + (st.currentPlaylist.length : Int)) %
        (st.currentPlaylist.length : Int)) ∧
    onFeederClose (controlSkip st (some "next")).state code =
      ({ (controlSkip st (some "next")).state with skipToTarget := false },
        .playNow) ∧
    onFeederClose (controlSkip st (some "previous")).state code =
      ({ (controlSkip st (some "previous")).state with skipToTarget := false },
        .playNow) ∧
    clampIndex st.currentPlaylist.length
        ((controlSkip st (some "next")).state.currentIndex) =
      (controlSkip st (some "next")).state.currentIndex ∧
    clampIndex st.currentPlaylist.length
        ((controlSkip st (some "previous")).state.currentIndex) =
      (controlSkip st (some "previous")).state.currentIndex := by
  obtain ⟨iss, mas, fed, pl, idx, skp, lc⟩ := st
  dsimp only at hstr hfeed h0 h1 ⊢
  subst hstr
  subst hfeed
  have hlen : (0 : Int) < (pl.length : Int) := by omega
  have hn : controlSkip ⟨true, mas, true, pl, idx, skp, lc⟩ (some "next") =
      { state := ⟨true, mas, true, pl,
          (if idx + 1 ≥ (pl.length : Int) then 0 else idx + 1), true, lc⟩,
        response := .success
          (if idx + 1 ≥ (pl.length : Int) then 0 else idx + 1),
        killedFeeder := true } := rfl
  have hp : controlSkip ⟨true, mas, true, pl, idx, skp, lc⟩ (some "previous") =
      { state := ⟨true, mas, true, pl,
          (if idx - 1 < 0 then (pl.length : Int) - 1 else idx - 1), true, lc⟩,
        response := .success
          (if idx - 1 < 0 then (pl.length : Int) - 1 else idx - 1),
        killedFeeder := true } := rfl
  rw [hn, hp]
  dsimp only
  have hmodn0 : 0 ≤ (idx + 1) % (pl.length : Int) :=
    Int.emod_nonneg _ (by omega)
  have hmodn1 : (idx + 1) % (pl.length : Int) < (pl.length : Int) :=
    Int.emod_lt_of_pos _ hlen
  have hmodp0 : 0 ≤ (idx - 1 + (pl.length : Int)) % (pl.length : Int) :=
    Int.emod_nonneg _ (by omega)
  have hmodp1 : (idx - 1 + (pl.length : Int)) % (pl.length : Int) <
      (pl.length : Int) := Int.emod_lt_of_pos _ hlen
  refine ⟨next_wrap pl.length idx h0 h1, rfl, rfl, ?_,
    prev_wrap pl.length idx h0 h1, rfl, rfl, ?_, ?_, ?_, ?_, ?_⟩
  · exact congrArg _ (next_wrap pl.length idx h0 h1)
  · exact congrArg _ (prev_wrap pl.length idx h0 h1)
  · exact onFeederClose_skip _ code rfl
  · exact onFeederClose_skip _ code rfl
  · rw [next_wrap pl.length idx h0 h1]
    exact clampIndex_id hmodn0 hmodn1
  · rw [prev_wrap pl.length idx h0 h1]
    exact clampIndex_id hmodp0 hmodp1

/-- Witness for C3: skipping from index 1 of the three-entry scenario. -/
theorem manual_skip_witness :
    (controlSkip st0 (some "next")).state.currentIndex =
      (st0.currentIndex + 1) % (st0.currentPlaylist.length : Int) ∧
    (controlSkip st0 (some "next")).state.skipToTarget = true ∧
    (controlSkip st0 (some "next")).killedFeeder = true ∧
    (controlSkip st0 (some "next")).response =
      .success ((st0.currentIndex + 1) % (st0.currentPlaylist.length : Int)) ∧
    (controlSkip st0 (some "previous")).state.currentIndex =
      (st0.currentIndex - 1 + (st0.currentPlaylist.length : Int)) %
        (st0.currentPlaylist.length : Int) ∧
    (controlSkip st0 (some "previous")).state.skipToTarget = true ∧
    (controlSkip st0 (some "previous")).killedFeeder = true ∧
    (controlSkip st0 (some "previous")).response =
      .success ((st0.currentIndex - 1 + (st0.currentPlaylist.length : Int)) %
        (st0.currentPlaylist.length : Int)) ∧
    onFeederClose (controlSkip st0 (some "next")).state none =
      ({ (controlSkip st0 (some "next")).state with skipToTarget := false },
        .playNow) ∧
    onFeederClose (controlSkip st0 (some "previous")).state none =
      ({ (controlSkip st0 (some "previous")).state with skipToTarget := false },
        .playNow) ∧
    clampIndex st0.currentPlaylist.length
        ((controlSkip st0 (some "next")).state.currentIndex) =
      (controlSkip st0 (some "next")).state.currentIndex ∧
    clampIndex st0.currentPlaylist.length
        ((controlSkip st0 (some "previous")).state.currentIndex) =
      (controlSkip st0 (some "previous")).state.currentIndex :=
  manual_skip_targets_neighbor st0 none (by decide) (by decide)
    (by decide) (by decide)

/-- C10 (confirmed).  The skip route rejects every request made while not
streaming, and every request whose direction is not next/previous, with an
error response; in both cases the broadcast state is returned unchanged
and no feeder is killed. -/
theorem skip_rejects_invalid (st : BroadcastState) (dir : Option String) :
    (st.isStreaming = false →
      controlSkip st dir =
        { state := st, response := .errNotActive, killedFeeder := false }) ∧
    (st.isStreaming = true → dir ≠ some "next" → dir ≠ some "previous" →
      controlSkip st dir =
        { state := st, response := .errInvalidDirection,
          killedFeeder := false }) := by
  constructor
  · intro h
    simp [controlSkip, h]
  · intro h hnx hpv
    have hbn : (dir != some "next") = true := by simpa using hnx
    have hbp : (dir != some "previous") = true := by simpa using hpv
    simp [controlSkip, h, hbn, hbp]

/-- Witness for C10: a request while idle, and a bad direction while
streaming, both leave the state untouched. -/
theorem skip_rejects_invalid_witness :
    controlSkip { st0 with isStreaming := false } (some "next") =
      { state := { st0 with isStreaming := false },
        response := .errNotActive, killedFeeder := false } ∧
    controlSkip st0 (some "sideways") =
      { state := st0, response := .errInvalidDirection,
        killedFeeder := false } :=
  ⟨(skip_rejects_invalid { st0 with isStreaming := false } (some "next")).1 rfl,
    (skip_rejects_invalid st0 (some "sideways")).2 (by decide)
      (by decide) (by decide)⟩

/-- smartRestart touches only the index. -/
theorem smartRestart_fields (saved : Option SavedState) (st : BroadcastState) :
    (smartRestart saved st).isStreaming = st.isStreaming ∧
    (smartRestart saved st).masterAlive = st.masterAlive ∧
    (smartRestart saved st).currentPlaylist = st.currentPlaylist ∧
    (smartRestart saved st).feederAlive = st.feederAlive := by
  cases saved with
  | none => exact ⟨rfl, rfl, rfl, rfl⟩
  | some s =>
    by_cases hid : strTruthy s.lastPlayedVideoId
    · simp only [smartRestart, hid, if_true]
      cases hfi : findIndex (fun v => itemId v == s.lastPlayedVideoId)
          st.currentPlaylist with
      | none => exact ⟨rfl, rfl, rfl, rfl⟩
      | some i => exact ⟨rfl, rfl, rfl, rfl⟩
    · simp [smartRestart, hid]

/-- A master start attempt succeeds when no master runs and both the RTMP
URL and the stream key are truthy. -/
theorem startMasterStream_success (cfg : Config) (st : BroadcastState)
    (hm : st.masterAlive = false) (hurl : strTruthy cfg.rtmp_url = true)
    (hkey : strTruthy cfg.stream_key = true) :
    startMasterStream cfg st =
      { st with masterAlive := true, isStreaming := true } := by
  unfold startMasterStream
  rw [hm]
  simp [hurl, hkey]

/-- A master start attempt is refused when the RTMP URL or stream key is
falsy: the state is returned unchanged. -/
theorem startMasterStream_blocked (cfg : Config) (st : BroadcastState)
    (hfail : strTruthy cfg.rtmp_url = false ∨ strTruthy cfg.stream_key = false) :
    startMasterStream cfg st = st := by
  unfold startMasterStream
  by_cases hm : st.masterAlive
  · simp [hm]
  · rcases hfail with h | h <;> simp [hm, h]

/-- The runtime-update block is a no-op when the last applied config is
the polled config itself. -/
theorem runtimeUpdate_noop (d : Dirs) (ex : String → Bool)
    (st : BroadcastState) (cfg : Config) (h : st.lastConfig = some cfg) :
    runtimeUpdate d ex st cfg = st := by
  unfold runtimeUpdate
  rw [h]
  simp [criticalChanged_self]

/-- Fields of the start branch after a successful master spawn. -/
theorem startBranch_fields (d : Dirs) (ex : String → Bool)
    (saved : Option SavedState) (st : BroadcastState) (cfg : Config)
    (hm : st.masterAlive = false) (hurl : strTruthy cfg.rtmp_url = true)
    (hkey : strTruthy cfg.stream_key = true) :
    (startBranch d ex saved st cfg).isStreaming = true ∧
    (startBranch d ex saved st cfg).masterAlive = true ∧
    (startBranch d ex saved st cfg).lastConfig = some cfg ∧
    (startBranch d ex saved st cfg).currentPlaylist =
      (cleanPlaylist d ex cfg.playlist).validPlaylist ∧
    (startBranch d ex saved st cfg).currentIndex =
      (smartRestart saved
        { st with
            currentPlaylist := (cleanPlaylist d ex cfg.playlist).validPlaylist,
            currentIndex := 0 }).currentIndex := by
  obtain ⟨f1, f2, f3, f4⟩ := smartRestart_fields saved
    { st with
        currentPlaylist := (cleanPlaylist d ex cfg.playlist).validPlaylist,
        currentIndex := 0 }
  simp only [startBranch]
  rw [startMasterStream_success cfg _ (by rw [f2]; exact hm) hurl hkey]
  exact ⟨rfl, rfl, trivial, f3, rfl⟩

/-- C5 counterexample: a config differing from the last applied one only
in bitrate is not treated as critical — the poll cycle leaves the
streaming state fully unchanged, so the Master is not stopped. -/
theorem critical_restart_counterexample :
    criticalChanged cfgBit cfg0 = false ∧
    cfgBit.bitrate ≠ cfg0.bitrate ∧
    cfgBit.stream_key = cfg0.stream_key ∧
    cfgBit.rtmp_url = cfg0.rtmp_url ∧
    cfgBit.audio_overlay_enabled = cfg0.audio_overlay_enabled ∧
    cfgBit.audio_volume = cfg0.audio_volume ∧
    cfgBit.audio_file = cfg0.audio_file ∧
    st0.isStreaming = true ∧ st0.lastConfig = some cfg0 ∧
    pollStreamConfig dA exAll none st0 (some cfgBit) = st0 ∧
    (pollStreamConfig dA exAll none st0 (some cfgBit)).isStreaming = true ∧
    (pollStreamConfig dA exAll none st0 (some cfgBit)).masterAlive = true := by
  decide

/-- C5 (corrected).  Critical-field restart for the fields the code
compares: while streaming, a change against the last applied config in
stream key, RTMP URL, or any audio overlay setting (enabled flag, volume,
file) — bitrate is not compared — makes the poll cycle stop the Master
and Feeder, and the next poll cycle re-enters Starting with the new
config. -/
theorem critical_restart_amended (d : Dirs) (ex : String → Bool)
    (saved saved2 : Option SavedState) (st : BroadcastState)
    (cfg last : Config)
    (hstr : st.isStreaming = true) (hlc : st.lastConfig = some last)
    (hact : cfg.is_active = true) (hcc : criticalChanged cfg last = true)
    (hurl : strTruthy cfg.rtmp_url = true)
    (hkey : strTruthy cfg.stream_key = true) :
    pollStreamConfig d ex saved st (some cfg) = stopStream st ∧
    (pollStreamConfig d ex saved st (some cfg)).isStreaming = false ∧
    (pollStreamConfig d ex saved st (some cfg)).masterAlive = false ∧
    (pollStreamConfig d ex saved st (some cfg)).feederAlive = false ∧
    (pollStreamConfig d ex saved2 (pollStreamConfig d ex saved st (some cfg))
        (some cfg)).isStreaming = true ∧
    (pollStreamConfig d ex saved2 (pollStreamConfig d ex saved st (some cfg))
        (some cfg)).masterAlive = true := by
  have h1 : pollStreamConfig d ex saved st (some cfg) = stopStream st := by
    simp [pollStreamConfig, runtimeUpdate, hstr, hact, hlc, hcc]
  have hm2 : (stopStream st).masterAlive = false := rfl
  have hs2 : (stopStream st).isStreaming = false := rfl
  obtain ⟨g1, g2, g3, g4, g5⟩ :=
    startBranch_fields d ex saved2 (stopStream st) cfg hm2 hurl hkey
  have h2 : pollStreamConfig d ex saved2 (stopStream st) (some cfg) =
      startBranch d ex saved2 (stopStream st) cfg := by
    simp [pollStreamConfig, hact, hs2, runtimeUpdate_noop d ex _ cfg g3]
  rw [h1]
  exact ⟨rfl, rfl, rfl, rfl, by rw [h2, g1], by rw [h2, g2]⟩

/-- Witness for the amended C5: changing the audio volume while streaming
stops the engine; the follow-up poll restarts it. -/
theorem critical_restart_witness :
    pollStreamConfig dA exAll none st0
        (some { cfg0 with audio_volume := some 50 }) = stopStream st0 ∧
    (pollStreamConfig dA exAll none
        (pollStreamConfig dA exAll none st0
          (some { cfg0 with audio_volume := some 50 }))
        (some { cfg0 with audio_volume := some 50 })).isStreaming = true := by
  have h := critical_restart_amended dA exAll none none st0
    { cfg0 with audio_volume := some 50 } cfg0 (by decide) (by decide)
    (by decide) (by decide) (by decide) (by decide)
  exact ⟨h.1, h.2.2.2.2.1⟩

/-- C6 counterexample: with playlist [A, B, C] and currentIndex = 1
(playing B), the update removing B does not set currentIndex to 0 — the
index stays 1, because the clamp only fires at or past the new length. -/
theorem removal_scenario_counterexample :
    st0.currentIndex = 1 ∧ st0.currentPlaylist = [itA, itB, itC] ∧
    cfg1.playlist = [itA, itC] ∧
    (pollStreamConfig dA exAll none st0 (some cfg1)).currentIndex = 1 ∧
    (pollStreamConfig dA exAll none st0 (some cfg1)).currentIndex ≠ 0 := by
  decide

/-- C6 (corrected).  Removal scenario: with playlist [A, B, C] and
currentIndex = 1 (playing B), a config update that removes B makes pointer
correction find no match and keep currentIndex = 1 (the clamp leaves
in-range indices untouched), so the pointer now rests on C; the next
natural advance wraps to index 0 of the new two-entry list and plays A. -/
theorem removal_scenario_amended :
    (pollStreamConfig dA exAll none st0 (some cfg1)).currentPlaylist =
      [itA, itC] ∧
    (pollStreamConfig dA exAll none st0 (some cfg1)).currentIndex = 1 ∧
    listGet (pollStreamConfig dA exAll none st0 (some cfg1)).currentPlaylist 1 =
      some itC ∧
    (stepNatural (pollStreamConfig dA exAll none st0 (some cfg1))).currentIndex
      = 0 ∧
    listGet (stepNatural
        (pollStreamConfig dA exAll none st0 (some cfg1))).currentPlaylist 0 =
      some itA := by
  decide

/-- C7 (confirmed).  Resolver precedence: a raw string resolves to itself;
a truthy filename wins over everything else and is joined to the video
directory; with no filename, a relative url beginning with /videos/ has
that prefix stripped and is joined to the video directory; with neither
filename nor url, a truthy raw path field is returned as-is; an entry with
none of these (id-only) resolves to null, never a guessed path. -/
theorem resolver_precedence (d : Dirs) (s u pth : String) (e : EntryFields) :
    (getVideoPath d (.raw s) = some s) ∧
    (strTruthy e.filename = true →
      getVideoPath d (.obj e) = some (pathJoin d.videosDir (e.filename.getD ""))) ∧
    (strTruthy e.filename = false → e.url = some u →
      strStartsWith u "http" = false → strStartsWith u "/videos/" = true →
      getVideoPath d (.obj e) = some (pathJoin d.videosDir (strDrop u 8))) ∧
    (strTruthy e.filename = false → strTruthy e.url = false →
      e.path = some pth → pth ≠ "" →
      getVideoPath d (.obj e) = some pth) ∧
    (strTruthy e.filename = false → strTruthy e.url = false →
      strTruthy e.path = false → getVideoPath d (.obj e) = none) := by
  refine ⟨rfl, ?_, ?_, ?_, ?_⟩
  · intro hf
    simp [getVideoPath, hf]
  · intro hf hu hhttp hvid
    have hne : u ≠ "" := by
      intro h
      subst h
      exact absurd hvid (by decide)
    have hut : strTruthy (some u) = true := by
      simp [strTruthy, hne]
    simp [getVideoPath, hf, hut, hu, hhttp, hvid]
  · intro hf hu hp hne
    have hpt : strTruthy (some pth) = true := by
      simp [strTruthy, hne]
    simp [getVideoPath, hf, hu, hpt, hp]
  · intro hf hu hp
    simp [getVideoPath, hf, hu, hp]

/-- An entry carrying filename, url and path together (inconsistently). -/
def eBoth : EntryFields :=
  { id := some "z", filename := some "f.mp4",
    url := some "http://h/videos/g.mp4", path := some "/p", title := none }

/-- An entry carrying only a relative /videos/ url. -/
def eUrl : EntryFields :=
  { id := some "z", filename := none, url := some "/videos/g.mp4",
    path := none, title := none }

/-- An entry carrying only an id. -/
def eIdOnly : EntryFields :=
  { id := some "z", filename := none, url := none, path := none,
    title := none }

/-- Witness for C7 on three concrete entries. -/
theorem resolver_precedence_witness :
    getVideoPath dA (.obj eBoth) = some "/srv/videos/f.mp4" ∧
    getVideoPath dA (.obj eUrl) = some "/srv/videos/g.mp4" ∧
    getVideoPath dA (.obj eIdOnly) = none :=
  ⟨((resolver_precedence dA "" "" "" eBoth).2.1 (by decide)).trans (by decide),
    ((resolver_precedence dA "" "/videos/g.mp4" "" eUrl).2.2.1 (by decide)
      (by decide) (by decide) (by decide)).trans (by decide),
    (resolver_precedence dA "" "" "" eIdOnly).2.2.2.2 (by decide) (by decide)
      (by decide)⟩

/-- The runtime-update block is a no-op when not streaming. -/
theorem runtimeUpdate_idle (d : Dirs) (ex : String → Bool)
    (st : BroadcastState) (cfg : Config) (h : st.isStreaming = false) :
    runtimeUpdate d ex st cfg = st := by
  unfold runtimeUpdate
  simp [h]

/-- Fields of the start branch when the master spawn is refused for a
missing RTMP URL or stream key. -/
theorem startBranch_blocked_fields (d : Dirs) (ex : String → Bool)
    (saved : Option SavedState) (st : BroadcastState) (cfg : Config)
    (hfail : strTruthy cfg.rtmp_url = false ∨ strTruthy cfg.stream_key = false) :
    (startBranch d ex saved st cfg).isStreaming = st.isStreaming ∧
    (startBranch d ex saved st cfg).masterAlive = st.masterAlive ∧
    (startBranch d ex saved st cfg).lastConfig = some cfg := by
  obtain ⟨f1, f2, f3, f4⟩ := smartRestart_fields saved
    { st with
        currentPlaylist := (cleanPlaylist d ex cfg.playlist).validPlaylist,
        currentIndex := 0 }
  simp only [startBranch]
  rw [startMasterStream_blocked cfg _ hfail]
  exact ⟨f1, f2, trivial⟩

/-- smartRestart is the identity on a state with an empty snapshot. -/
theorem smartRestart_empty (saved : Option SavedState) (st : BroadcastState)
    (h : st.currentPlaylist = []) : smartRestart saved st = st := by
  cases saved with
  | none => rfl
  | some s =>
    by_cases hid : strTruthy s.lastPlayedVideoId
    · simp [smartRestart, hid, h, findIndex]
    · simp [smartRestart, hid]

/-- C8 counterexample: with RTMP URL and stream key present but an empty
playlist, the start branch does spawn the Master and sets isStreaming —
an empty post-validation playlist does not block Starting. -/
theorem config_error_counterexample :
    cfgEmpty.playlist = [] ∧
    strTruthy cfgEmpty.rtmp_url = true ∧
    strTruthy cfgEmpty.stream_key = true ∧
    stIdle.isStreaming = false ∧ stIdle.masterAlive = false ∧
    (pollStreamConfig dA exAll none stIdle (some cfgEmpty)).isStreaming = true ∧
    (pollStreamConfig dA exAll none stIdle (some cfgEmpty)).masterAlive = true := by
  decide

/-- C8 (corrected).  Configuration errors at the Idle-to-Starting
transition: a missing (falsy) RTMP URL or stream key is non-fatal — no
Master is spawned, isStreaming stays false, and a later poll with a
complete config starts the stream.  An empty (post-validation) playlist,
however, does not block Starting: the Master is spawned, isStreaming
becomes true, and playNextVideo waits on the empty playlist, retrying
until entries appear. -/
theorem config_error_amended (d : Dirs) (ex : String → Bool) (now : Int)
    (saved saved2 : Option SavedState) (st : BroadcastState)
    (cfg cfg2 : Config)
    (hidle : st.isStreaming = false) (hm : st.masterAlive = false)
    (hact : cfg.is_active = true)
    (h2a : cfg2.is_active = true) (h2u : strTruthy cfg2.rtmp_url = true)
    (h2k : strTruthy cfg2.stream_key = true) :
    ((strTruthy cfg.rtmp_url = false ∨ strTruthy cfg.stream_key = false) →
      (pollStreamConfig d ex saved st (some cfg)).isStreaming = false ∧
      (pollStreamConfig d ex saved st (some cfg)).masterAlive = false ∧
      (pollStreamConfig d ex saved2 (pollStreamConfig d ex saved st (some cfg))
          (some cfg2)).isStreaming = true) ∧
    (strTruthy cfg.rtmp_url = true → strTruthy cfg.stream_key = true →
      cfg.playlist = [] →
      (pollStreamConfig d ex saved st (some cfg)).isStreaming = true ∧
      (pollStreamConfig d ex saved st (some cfg)).masterAlive = true ∧
      (playNextVideo d ex now 1
          (pollStreamConfig d ex saved st (some cfg))).outcome = .emptyWait) := by
  constructor
  · intro hfail
    obtain ⟨b1, b2, b3⟩ := startBranch_blocked_fields d ex saved st cfg hfail
    have h1 : pollStreamConfig d ex saved st (some cfg) =
        startBranch d ex saved st cfg := by
      simp [pollStreamConfig, hact, hidle,
        runtimeUpdate_idle d ex _ cfg (b1.trans hidle)]
    have hs1 : (startBranch d ex saved st cfg).isStreaming = false :=
      b1.trans hidle
    have hm1 : (startBranch d ex saved st cfg).masterAlive = false :=
      b2.trans hm
    obtain ⟨g1, g2, g3, g4, g5⟩ := startBranch_fields d ex saved2
      (startBranch d ex saved st cfg) cfg2 hm1 h2u h2k
    have h2 : pollStreamConfig d ex saved2 (startBranch d ex saved st cfg)
        (some cfg2) =
        startBranch d ex saved2 (startBranch d ex saved st cfg) cfg2 := by
      simp [pollStreamConfig, h2a, hs1, runtimeUpdate_noop d ex _ cfg2 g3]
    rw [h1]
    exact ⟨hs1, hm1, by rw [h2, g1]⟩
  · intro hu hk hpl
    obtain ⟨g1, g2, g3, g4, g5⟩ := startBranch_fields d ex saved st cfg hm hu hk
    have h1 : pollStreamConfig d ex saved st (some cfg) =
        startBranch d ex saved st cfg := by
      simp [pollStreamConfig, hact, hidle, runtimeUpdate_noop d ex _ cfg g3]
    have hempty : (startBranch d ex saved st cfg).currentPlaylist = [] := by
      rw [g4, hpl]
      rfl
    refine ⟨by rw [h1, g1], by rw [h1, g2], ?_⟩
    rw [h1]
    simp [playNextVideo, g1, g2, hempty]

/-- Witness for the amended C8: a config missing its stream key leaves the
engine idle; a later complete config starts it; an empty playlist starts
the master and waits. -/
theorem config_error_witness :
    ((pollStreamConfig dA exAll none stIdle (some cfgNoKey)).isStreaming =
        false ∧
      (pollStreamConfig dA exAll none stIdle (some cfgNoKey)).masterAlive =
        false ∧
      (pollStreamConfig dA exAll none
          (pollStreamConfig dA exAll none stIdle (some cfgNoKey))
          (some cfg0)).isStreaming = true) ∧
    ((pollStreamConfig dA exAll none stIdle (some cfgEmpty)).isStreaming =
        true ∧
      (pollStreamConfig dA exAll none stIdle (some cfgEmpty)).masterAlive =
        true ∧
      (playNextVideo dA exAll 0 1
          (pollStreamConfig dA exAll none stIdle (some cfgEmpty))).outcome =
        .emptyWait) :=
  ⟨(config_error_amended dA exAll 0 none none stIdle cfgNoKey cfg0
      (by decide) (by decide) (by decide) (by decide) (by decide)
      (by decide)).1 (by decide),
    (config_error_amended dA exAll 0 none none stIdle cfgEmpty cfg0
      (by decide) (by decide) (by decide) (by decide) (by decide)
      (by decide)).2 (by decide) (by decide) (by decide)⟩

/-- A list with isEmpty false has positive length. -/
theorem length_pos_of_isEmpty_false {l : List PlaylistItem}
    (h : l.isEmpty = false) : 0 < l.length := by
  cases l with
  | nil => simp at h
  | cons a t => simp

/-- A list with positive length has isEmpty false. -/
theorem isEmpty_false_of_length_pos {l : List PlaylistItem}
    (h : 0 < l.length) : l.isEmpty = false := by
  cases l with
  | nil => simp at h
  | cons a t => rfl

/-- Every member of a cleaned playlist has a truthy, existing path. -/
theorem cleanPlaylist_pathOk (d : Dirs) (ex : String → Bool)
    (pl : List PlaylistItem) {x : PlaylistItem}
    (hx : x ∈ (cleanPlaylist d ex pl).validPlaylist) :
    pathOk ex (getVideoPath d x) = true :=
  (List.mem_filter.mp hx).2

/-- getD at an in-range position is a member of the list. -/
theorem getD_mem {l : List PlaylistItem} {n : Nat} (h : n < l.length) :
    l.getD n (.raw "") ∈ l := by
  rw [List.getD_eq_getElem l _ h]
  exact List.getElem_mem h

/-- Whenever playNextVideo reports a spawned entry, the resume checkpoint
written by saveStreamState carries exactly that entry's id and the current
time. -/
theorem playNextVideo_saved_on_spawn (d : Dirs) (ex : String → Bool)
    (now : Int) : ∀ (fuel : Nat) (st : BroadcastState) (idx : Nat)
    (item : PlaylistItem) (file : String),
    (playNextVideo d ex now fuel st).outcome = .spawned idx item file →
    (playNextVideo d ex now fuel st).saved =
      some { lastPlayedVideoId := itemId item, timestamp := now } := by
  intro fuel
  induction fuel with
  | zero =>
    intro st idx item file h
    simp [playNextVideo] at h
  | succ fuel ih =>
    intro st idx item file h
    by_cases hb : (!(st.isStreaming && st.masterAlive)) = true
    · simp [playNextVideo, hb] at h
    · have hb' : (!(st.isStreaming && st.masterAlive)) = false := by
        simpa using hb
      by_cases he : st.currentPlaylist.isEmpty = true
      · simp [playNextVideo, hb', he] at h
      · have he' : st.currentPlaylist.isEmpty = false := by simpa using he
        by_cases hok : pathOk ex (getVideoPath d
            (st.currentPlaylist.getD
              (clampIndex st.currentPlaylist.length st.currentIndex).toNat
              (.raw ""))) = true
        · simp only [playNextVideo, hb', he', hok] at h ⊢
          simp only [Bool.false_eq_true, if_false, if_true] at h ⊢
          obtain ⟨-, h2, -⟩ := PlayOutcome.spawned.inj h
          rw [h2]
        · have hok' : pathOk ex (getVideoPath d
              (st.currentPlaylist.getD
                (clampIndex st.currentPlaylist.length st.currentIndex).toNat
                (.raw ""))) = false := by simpa using hok
          simp only [playNextVideo, hb', he', hok'] at h ⊢
          simp only [Bool.false_eq_true, if_false] at h ⊢
          exact ih _ idx item file h

/-- Whenever playNextVideo reports a spawned entry, the spawned index is
within the (unchanged) playlist snapshot. -/
theorem playNextVideo_spawn_bounds (d : Dirs) (ex : String → Bool)
    (now : Int) : ∀ (fuel : Nat) (st : BroadcastState) (idx : Nat)
    (item : PlaylistItem) (file : String),
    (playNextVideo d ex now fuel st).outcome = .spawned idx item file →
    idx < st.currentPlaylist.length := by
  intro fuel
  induction fuel with
  | zero =>
    intro st idx item file h
    simp [playNextVideo] at h
  | succ fuel ih =>
    intro st idx item file h
    by_cases hb : (!(st.isStreaming && st.masterAlive)) = true
    · simp [playNextVideo, hb] at h
    · have hb' : (!(st.isStreaming && st.masterAlive)) = false := by
        simpa using hb
      by_cases he : st.currentPlaylist.isEmpty = true
      · simp [playNextVideo, hb', he] at h
      · have he' : st.currentPlaylist.isEmpty = false := by simpa using he
        have hlen : 0 < st.currentPlaylist.length :=
          length_pos_of_isEmpty_false he'
        by_cases hok : pathOk ex (getVideoPath d
            (st.currentPlaylist.getD
              (clampIndex st.currentPlaylist.length st.currentIndex).toNat
              (.raw ""))) = true
        · simp only [playNextVideo, hb', he', hok] at h
          simp only [Bool.false_eq_true, if_false, if_true] at h
          obtain ⟨h1, -, -⟩ := PlayOutcome.spawned.inj h
          have hcm : 1 ≤ st.currentPlaylist.length := by omega
          obtain ⟨c0, c1⟩ := clampIndex_mem hcm st.currentIndex
          omega
        · have hok' : pathOk ex (getVideoPath d
              (st.currentPlaylist.getD
                (clampIndex st.currentPlaylist.length st.currentIndex).toNat
                (.raw ""))) = false := by simpa using hok
          simp only [playNextVideo, hb', he', hok'] at h
          simp only [Bool.false_eq_true, if_false] at h
          have hrec := ih _ idx item file h
          exact hrec

/-- playNextVideo on a streaming state whose index already rests on an
in-range entry with an existing file spawns exactly that entry and writes
its id to the checkpoint. -/
theorem playNextVideo_spawn_at (d : Dirs) (ex : String → Bool) (now : Int)
    (st : BroadcastState) (n : Nat)
    (hs : st.isStreaming = true) (hm : st.masterAlive = true)
    (hidx : st.currentIndex = (n : Int)) (hn : n < st.currentPlaylist.length)
    (hok : pathOk ex (getVideoPath d (st.currentPlaylist.getD n (.raw ""))) =
      true) :
    (playNextVideo d ex now 1 st).outcome =
      .spawned n (st.currentPlaylist.getD n (.raw ""))
        ((getVideoPath d (st.currentPlaylist.getD n (.raw ""))).getD "") ∧
    (playNextVideo d ex now 1 st).saved =
      some { lastPlayedVideoId := itemId (st.currentPlaylist.getD n (.raw "")),
             timestamp := now } := by
  have hb : (!(st.isStreaming && st.masterAlive)) = false := by
    simp [hs, hm]
  have he : st.currentPlaylist.isEmpty = false :=
    isEmpty_false_of_length_pos (by omega)
  have hcl : clampIndex st.currentPlaylist.length st.currentIndex = (n : Int) := by
    rw [hidx]
    exact clampIndex_id (by omega) (by omega)
  have htn : (clampIndex st.currentPlaylist.length st.currentIndex).toNat = n := by
    rw [hcl]
    exact Int.toNat_natCast n
  simp only [playNextVideo, hb, he, htn, hok, Bool.false_eq_true, if_false,
    if_true]
  exact ⟨trivial, trivial⟩

/-- smartRestart when the checkpoint id is truthy and found at position i:
the index becomes (i+1) mod length. -/
theorem smartRestart_found (s : SavedState) (st : BroadcastState) (i : Nat)
    (hid : strTruthy s.lastPlayedVideoId = true)
    (hfi : findIndex (fun v => itemId v == s.lastPlayedVideoId)
      st.currentPlaylist = some i) :
    smartRestart (some s) st =
      { st with currentIndex :=
          (((i + 1) % st.currentPlaylist.length : Nat) : Int) } := by
  simp [smartRestart, hid, hfi]

/-- smartRestart when the checkpoint id is not found: the state is kept. -/
theorem smartRestart_notfound (s : SavedState) (st : BroadcastState)
    (hfi : findIndex (fun v => itemId v == s.lastPlayedVideoId)
      st.currentPlaylist = none) :
    smartRestart (some s) st = st := by
  by_cases hid : strTruthy s.lastPlayedVideoId
  · simp [smartRestart, hid, hfi]
  · simp [smartRestart, hid]

/-- C4 (confirmed).  Resume checkpoint: the checkpoint
{lastPlayedVideoId, timestamp} is written each time an entry begins
playing (first conjunct); on the Idle-to-Starting transition, when the
loaded checkpoint's id is found at index i of the adopted playlist of
length L, playback starts at index (i+1) mod L — the first feeder spawn
is exactly that entry — and when no entry matches, playback starts at
index 0. -/
theorem resume_checkpoint_restart (d : Dirs) (ex : String → Bool) (now : Int)
    (fuel : Nat) (stAny : BroadcastState) (idx : Nat) (item : PlaylistItem)
    (file : String) (st : BroadcastState) (cfg : Config) (s : SavedState)
    (i : Nat)
    (hidle : st.isStreaming = false) (hm : st.masterAlive = false)
    (hact : cfg.is_active = true)
    (hurl : strTruthy cfg.rtmp_url = true)
    (hkey : strTruthy cfg.stream_key = true)
    (hsid : strTruthy s.lastPlayedVideoId = true) :
    ((playNextVideo d ex now fuel stAny).outcome = .spawned idx item file →
      (playNextVideo d ex now fuel stAny).saved =
        some { lastPlayedVideoId := itemId item, timestamp := now }) ∧
    (findIndex (fun v => itemId v == s.lastPlayedVideoId)
        (cleanPlaylist d ex cfg.playlist).validPlaylist = some i →
      (pollStreamConfig d ex (some s) st (some cfg)).currentIndex =
        (((i + 1) % (cleanPlaylist d ex cfg.playlist).validPlaylist.length :
          Nat) : Int) ∧
      (pollStreamConfig d ex (some s) st (some cfg)).currentPlaylist =
        (cleanPlaylist d ex cfg.playlist).validPlaylist ∧
      (pollStreamConfig d ex (some s) st (some cfg)).isStreaming = true ∧
      (playNextVideo d ex now 1
          (pollStreamConfig d ex (some s) st (some cfg))).outcome =
        .spawned
          ((i + 1) % (cleanPlaylist d ex cfg.playlist).validPlaylist.length)
          ((pollStreamConfig d ex (some s) st
              (some cfg)).currentPlaylist.getD
            ((i + 1) % (cleanPlaylist d ex cfg.playlist).validPlaylist.length)
            (.raw ""))
          ((getVideoPath d ((pollStreamConfig d ex (some s) st
              (some cfg)).currentPlaylist.getD
            ((i + 1) % (cleanPlaylist d ex cfg.playlist).validPlaylist.length)
            (.raw ""))).getD "")) ∧
    (findIndex (fun v => itemId v == s.lastPlayedVideoId)
        (cleanPlaylist d ex cfg.playlist).validPlaylist = none →
      (pollStreamConfig d ex (some s) st (some cfg)).currentIndex = 0 ∧
      (pollStreamConfig d ex (some s) st (some cfg)).isStreaming = true) := by
  obtain ⟨g1, g2, g3, g4, g5⟩ :=
    startBranch_fields d ex (some s) st cfg hm hurl hkey
  have h1 : pollStreamConfig d ex (some s) st (some cfg) =
      startBranch d ex (some s) st cfg := by
    simp [pollStreamConfig, hact, hidle, runtimeUpdate_noop d ex _ cfg g3]
  refine ⟨playNextVideo_saved_on_spawn d ex now fuel stAny idx item file,
    ?_, ?_⟩
  · intro hfi
    have hlen : i < (cleanPlaylist d ex cfg.playlist).validPlaylist.length :=
      findIndex_some_lt hfi
    have hsm := smartRestart_found s
      { st with
          currentPlaylist := (cleanPlaylist d ex cfg.playlist).validPlaylist,
          currentIndex := 0 } i hsid hfi
    have hidx : (pollStreamConfig d ex (some s) st (some cfg)).currentIndex =
        (((i + 1) % (cleanPlaylist d ex cfg.playlist).validPlaylist.length :
          Nat) : Int) := by
      rw [h1, g5, hsm]
    have hpl : (pollStreamConfig d ex (some s) st (some cfg)).currentPlaylist =
        (cleanPlaylist d ex cfg.playlist).validPlaylist := by
      rw [h1, g4]
    have hs' : (pollStreamConfig d ex (some s) st (some cfg)).isStreaming =
        true := by
      rw [h1]
      exact g1
    have hm' : (pollStreamConfig d ex (some s) st (some cfg)).masterAlive =
        true := by
      rw [h1]
      exact g2
    have hn' : (i + 1) % (cleanPlaylist d ex cfg.playlist).validPlaylist.length
        < (pollStreamConfig d ex (some s) st
            (some cfg)).currentPlaylist.length := by
      rw [hpl]
      exact Nat.mod_lt _ (by omega)
    have hok' : pathOk ex (getVideoPath d
        ((pollStreamConfig d ex (some s) st (some cfg)).currentPlaylist.getD
          ((i + 1) % (cleanPlaylist d ex cfg.playlist).validPlaylist.length)
          (.raw ""))) = true := by
      rw [hpl]
      exact cleanPlaylist_pathOk d ex cfg.playlist
        (getD_mem (by exact Nat.mod_lt _ (by omega)))
    obtain ⟨o1, -⟩ := playNextVideo_spawn_at d ex now
      (pollStreamConfig d ex (some s) st (some cfg))
      ((i + 1) % (cleanPlaylist d ex cfg.playlist).validPlaylist.length)
      hs' hm' hidx hn' hok'
    exact ⟨hidx, hpl, hs', o1⟩
  · intro hfi
    have hsm := smartRestart_notfound s
      { st with
          currentPlaylist := (cleanPlaylist d ex cfg.playlist).validPlaylist,
          currentIndex := 0 } hfi
    refine ⟨?_, by rw [h1]; exact g1⟩
    rw [h1, g5, hsm]

/-- Witness for C4: restarting with checkpoint id idB (index 1 of
[A, B, C]) resumes at index 2, entry C. -/
theorem resume_checkpoint_witness :
    (pollStreamConfig dA exAll (some savedB) stIdle (some cfg0)).currentIndex
      = 2 ∧
    (pollStreamConfig dA exAll (some savedB) stIdle (some cfg0)).isStreaming
      = true ∧
    (playNextVideo dA exAll 0 1
        (pollStreamConfig dA exAll (some savedB) stIdle
          (some cfg0))).outcome =
      .spawned 2 itC "/srv/videos/c.mp4" := by
  have h := (resume_checkpoint_restart dA exAll 0 1 stIdle 0 itB ""
    stIdle cfg0 savedB 1 (by decide) (by decide) (by decide) (by decide)
    (by decide) (by decide)).2.1 (by decide)
  refine ⟨h.1.trans (by decide), h.2.2.1, h.2.2.2.trans ?_⟩
  decide

/-- After a playlist replacement while an in-range truthy entry is
playing, the corrected index lies in [0, newLength) whenever the new
validated playlist is non-empty. -/
theorem applyPlaylistUpdate_bounds (d : Dirs) (ex : String → Bool)
    (st : BroadcastState) (cfg : Config) (old : PlaylistItem)
    (hold : listGet st.currentPlaylist st.currentIndex = some old)
    (ht : itemTruthy old = true)
    (hnv : 1 ≤ (cleanPlaylist d ex cfg.playlist).validPlaylist.length) :
    0 ≤ (applyPlaylistUpdate d ex st cfg).currentIndex ∧
    (applyPlaylistUpdate d ex st cfg).currentIndex <
      ((applyPlaylistUpdate d ex st cfg).currentPlaylist.length : Int) := by
  obtain ⟨iss, mas, fed, pl, idx, skp, lc⟩ := st
  obtain ⟨hi0, -⟩ := listGet_bounds hold
  have hi0' : 0 ≤ idx := hi0
  cases hfi : findIndex (matchesOld old)
      (cleanPlaylist d ex cfg.playlist).validPlaylist with
  | some n =>
    have hlt := findIndex_some_lt hfi
    simp only [applyPlaylistUpdate, hold, ht, hfi, if_true]
    constructor <;> omega
  | none =>
    simp only [applyPlaylistUpdate, hold, ht, hfi, if_true]
    by_cases hge : idx ≥
        ((cleanPlaylist d ex cfg.playlist).validPlaylist.length : Int)
    · rw [if_pos hge]
      dsimp only
      constructor <;> omega
    · rw [if_neg hge]
      dsimp only
      constructor <;> omega

/-- C9 (confirmed).  Index invariant at use points: whatever index
playNextVideo actually spawns is within the snapshot it selected from
(out-of-range values are re-clamped before use), and a playlist
replacement made while an in-range entry is playing leaves currentIndex
clamped into [0, newLength) whenever the new validated snapshot is
non-empty. -/
theorem index_invariant (d : Dirs) (ex : String → Bool) (now : Int)
    (fuel : Nat) (st1 st2 : BroadcastState) (cfg : Config) (idx : Nat)
    (item : PlaylistItem) (file : String) (old : PlaylistItem)
    (hsp : (playNextVideo d ex now fuel st1).outcome = .spawned idx item file)
    (hold : listGet st2.currentPlaylist st2.currentIndex = some old)
    (ht : itemTruthy old = true)
    (hnv : 1 ≤ (cleanPlaylist d ex cfg.playlist).validPlaylist.length) :
    idx < st1.currentPlaylist.length ∧
    0 ≤ (applyPlaylistUpdate d ex st2 cfg).currentIndex ∧
    (applyPlaylistUpdate d ex st2 cfg).currentIndex <
      ((applyPlaylistUpdate d ex st2 cfg).currentPlaylist.length : Int) := by
  obtain ⟨b1, b2⟩ := applyPlaylistUpdate_bounds d ex st2 cfg old hold ht hnv
  exact ⟨playNextVideo_spawn_bounds d ex now fuel st1 idx item file hsp, b1, b2⟩

/-- Witness for C9 on the concrete scenario: the spawn at index 1 is in
range, and removing B keeps the index within the two-entry snapshot. -/
theorem index_invariant_witness :
    1 < st0.currentPlaylist.length ∧
    0 ≤ (applyPlaylistUpdate dA exAll st0 cfg1).currentIndex ∧
    (applyPlaylistUpdate dA exAll st0 cfg1).currentIndex <
      ((applyPlaylistUpdate dA exAll st0 cfg1).currentPlaylist.length : Int) :=
  index_invariant dA exAll 0 1 st0 st0 cfg1 1 itB "/srv/videos/b.mp4" itB
    (by decide) (by decide) (by decide) (by decide)

end StreamFlow
